import Mathlib

/-!
Shallow embedding of the Climate-IQ aggregation and resilience layer
(files backend/api_handlers/climate_apis.py and
backend/api_handlers/climate_trace_api.py).

Python dictionaries are modelled as association lists of string keys and
`PyVal` values; Python numbers (ints and floats) are modelled as rationals.
Network calls are modelled as explicit parameters carrying the upstream
outcome (`Except` for calls that can fail), so every operation is a total
Lean function; a caught Python exception corresponds to the error branch of
the embedding.
-/

namespace ClimateIQ

/-- Model of a Python JSON-like value: string, number, list or dict. -/
inductive PyVal where
  | str : String → PyVal
  | num : ℚ → PyVal
  | list : List PyVal → PyVal
  | dict : List (String × PyVal) → PyVal

/-- Model of a Python dict with string keys as an association list. -/
abbrev PyDict := List (String × PyVal)

/-- Membership test for a key of a modelled dict (Python `k in d`). -/
def hasKey (d : PyDict) (k : String) : Bool :=
  d.any (fun kv => kv.1 == k)

/-- Model of Python `d.get(k, default)` on a modelled dict. -/
def pyGet (d : PyDict) (k : String) (dflt : PyVal) : PyVal :=
  match d.find? (fun kv => kv.1 == k) with
  | some kv => kv.2
  | none => dflt

/-- Model of Python `str.lower` (ASCII case folding, as used on the
city-table keys). -/
def pyLower (s : String) : String := String.mk (s.data.map Char.toLower)

/-- Character-list worker for `pyTitle`; the boolean records whether the
previous character was alphabetic. -/
def pyTitleAux : Bool → List Char → List Char
  | _, [] => []
  | prevCased, c :: cs =>
    if c.isAlpha then
      (if prevCased then c.toLower else c.toUpper) :: pyTitleAux true cs
    else
      c :: pyTitleAux false cs

/-- Model of Python `str.title` for ASCII text: the first character of each
alphabetic run is uppercased and the rest lowercased. -/
def pyTitle (s : String) : String := String.mk (pyTitleAux false s.data)

/-! ## Weather lookup and its fallback (climate_apis.py lines 25-91) -/

/-- Fields of a fully parsed successful OpenWeatherMap response, exactly the
ones `get_weather_data` reads; any transport error, non-2xx status or
missing key raises inside the `try` block and is modelled as the `error`
branch of the upstream outcome. -/
structure WeatherUpstream where
  name : String
  country : String
  temp : ℚ
  humidity : ℚ
  pressure : ℚ
  weatherDescription : String
  windSpeed : ℚ
  lat : ℚ
  lon : ℚ

/-- Static per-city information of the fallback table. -/
structure CityInfo where
  lat : ℚ
  lon : ℚ
  temp : ℚ
  country : String
deriving DecidableEq

/-- The fixed city table of `_get_fallback_weather_data`. -/
def city_data : List (String × CityInfo) :=
  [("new york", ⟨40.7128, -74.0060, 15, "US"⟩),
   ("london", ⟨51.5074, -0.1278, 12, "GB"⟩),
   ("tokyo", ⟨35.6762, 139.6503, 18, "JP"⟩),
   ("paris", ⟨48.8566, 2.3522, 14, "FR"⟩),
   ("berlin", ⟨52.5200, 13.4050, 11, "DE"⟩),
   ("sydney", ⟨-33.8688, 151.2093, 22, "AU"⟩),
   ("mumbai", ⟨19.0760, 72.8777, 28, "IN"⟩),
   ("beijing", ⟨39.9042, 116.4074, 16, "CN"⟩),
   ("moscow", ⟨55.7558, 37.6176, 8, "RU"⟩),
   ("cairo", ⟨30.0444, 31.2357, 25, "EG"⟩)]

/-- The `city_data[new york]` entry used as the default of the table
lookup in `_get_fallback_weather_data`. -/
def newYorkCity : CityInfo :=
  ((city_data.find? (fun kv => kv.1 == "new york")).map (·.2)).getD ⟨0, 0, 0, ""⟩

/-- Embedding of `_get_fallback_weather_data` (climate_apis.py 59-91). -/
def _get_fallback_weather_data (location : String) : PyDict :=
  let cityInfo :=
    ((city_data.find? (fun kv => kv.1 == pyLower location)).map (·.2)).getD newYorkCity
  [("location", .str (pyTitle location)),
   ("country", .str cityInfo.country),
   ("temperature", .num cityInfo.temp),
   ("humidity", .num 65),
   ("pressure", .num 1013),
   ("weather", .str "partly cloudy"),
   ("wind_speed", .num 3.5),
   ("coordinates", .dict [("lat", .num cityInfo.lat), ("lon", .num cityInfo.lon)]),
   ("note", .str "Using fallback data - API unavailable")]

/-- Embedding of `get_weather_data` (climate_apis.py 25-57): on a fully
parsed upstream response it builds the live mapping, on any caught
exception it returns the fallback mapping. -/
def get_weather_data (location : String) (upstream : Except String WeatherUpstream) :
    PyDict :=
  match upstream with
  | .ok d =>
    [("location", .str d.name),
     ("country", .str d.country),
     ("temperature", .num d.temp),
     ("humidity", .num d.humidity),
     ("pressure", .num d.pressure),
     ("weather", .str d.weatherDescription),
     ("wind_speed", .num d.windSpeed),
     ("coordinates", .dict [("lat", .num d.lat), ("lon", .num d.lon)])]
  | .error _ => _get_fallback_weather_data location

/-! ## Air quality (climate_apis.py 93-135) -/

/-- Fields of one entry of the parsed air-pollution response list, exactly
the ones `get_air_quality` reads. -/
structure AqiEntry where
  aqi : ℚ
  components : List (String × ℚ)
  dt : ℚ
deriving DecidableEq

/-- Embedding of `get_air_quality` (climate_apis.py 93-135). The upstream
outcome is the parsed response list on success, or an error message when the
request raised; `fallbackTs` stands for `int(datetime.now().timestamp())`. -/
def get_air_quality (upstream : Except String (List AqiEntry)) (fallbackTs : ℤ) :
    PyDict :=
  match upstream with
  | .ok entries =>
    match entries with
    | e :: _ =>
      [("aqi", .num e.aqi),
       ("components", .dict (e.components.map (fun kv => (kv.1, PyVal.num kv.2)))),
       ("timestamp", .num e.dt)]
    | [] => [("error", .str "No air quality data available")]
  | .error _ =>
    [("aqi", .num 3),
     ("components", .dict
       [("co", .num 233.0), ("no", .num 0.01), ("no2", .num 20.0),
        ("o3", .num 68.0), ("so2", .num 6.0), ("pm2_5", .num 15.0),
        ("pm10", .num 25.0), ("nh3", .num 0.5)]),
     ("timestamp", .num fallbackTs),
     ("note", .str "Using fallback data - API unavailable")]

/-! ## Carbon footprint (climate_apis.py 171-223) -/

/-- Embedding of `_prepare_carbon_payload` (climate_apis.py 200-223); the
`error` branch models the raised `ValueError`. -/
def _prepare_carbon_payload (activityType : String) (activityData : PyDict) :
    Except String PyDict :=
  if activityType = "electricity" then
    .ok [("type", .str "electricity"),
         ("electricity_unit", .str "kwh"),
         ("electricity_value", pyGet activityData "kwh" (.num 0)),
         ("country", pyGet activityData "country" (.str "us"))]
  else if activityType = "vehicle" then
    .ok [("type", .str "vehicle"),
         ("distance_unit", pyGet activityData "distance_unit" (.str "km")),
         ("distance_value", pyGet activityData "distance" (.num 0)),
         ("vehicle_model_id",
          pyGet activityData "vehicle_model_id"
            (.str "7268a9b7-17e8-4c8d-acca-57059252afe9"))]
  else if activityType = "flight" then
    .ok [("type", .str "flight"),
         ("passengers", pyGet activityData "passengers" (.num 1)),
         ("legs", pyGet activityData "legs" (.list []))]
  else
    .error ("Unsupported activity type: " ++ activityType)

/-- Result of a carbon-footprint call: the payload of the POST request when
one was issued, and the returned mapping. -/
structure CarbonOutcome where
  networkPayload : Option PyDict
  result : PyDict

/-- Embedding of `calculate_carbon_footprint` (climate_apis.py 171-198).
The upstream function stands for the POST request plus response parsing and
yields the `carbon_kg`, `carbon_lb` and `carbon_mt` figures on success; the
`ValueError` raised by payload preparation is caught by the same handler
and becomes the error mapping, with no request issued. -/
def calculate_carbon_footprint (activityType : String) (activityData : PyDict)
    (upstream : PyDict → Except String (ℚ × ℚ × ℚ)) : CarbonOutcome :=
  match _prepare_carbon_payload activityType activityData with
  | .error msg => ⟨none, [("error", .str msg)]⟩
  | .ok payload =>
    match upstream payload with
    | .error msg => ⟨some payload, [("error", .str msg)]⟩
    | .ok (kg, lb, mt) =>
      ⟨some payload,
       [("carbon_kg", .num kg),
        ("carbon_lb", .num lb),
        ("carbon_mt", .num mt),
        ("activity_type", .str activityType),
        ("activity_data", .dict activityData)]⟩

/-! ## Single-source lookup (climate_trace_api.py 67-83) -/

/-- Result of a source-details call: whether the GET request was attempted,
and the returned mapping. -/
structure SourceDetailsOutcome where
  networkAttempted : Bool
  result : PyDict

/-- Embedding of `get_source_details` (climate_trace_api.py 67-83). The
upstream outcome stands for the GET request plus response decoding. -/
def get_source_details (sourceId : ℤ) (upstream : Except String PyDict) :
    SourceDetailsOutcome :=
  if 1 ≤ sourceId ∧ sourceId ≤ 5000000 then
    match upstream with
    | .ok data => ⟨true, data⟩
    | .error msg => ⟨true, [("error", .str msg)]⟩
  else
    ⟨false, [("error", .str "Source ID must be between 1 and 5,000,000")]⟩

/-! ## Country emissions year clamping (climate_trace_api.py 127-143) -/

/-- Clamp of a year into [2000, 2050], as written on lines 141-142:
`max(2000, min(y, 2050))`. -/
def clampYear (y : ℤ) : ℤ := max 2000 (min y 2050)

/-- The `since` and `to` query parameters transmitted by
`get_country_emissions` (climate_trace_api.py 140-143): each input year is
clamped independently. -/
def countryEmissionsTransmittedYears (since toYear : ℤ) : ℤ × ℤ :=
  (clampYear since, clampYear toYear)

/-! ## Emissions near a location (climate_trace_api.py 333-365) -/

/-- Embedding of `get_emissions_by_location` (climate_trace_api.py
333-365). The longitude offset is `radius_km / (111.0 * abs(lat))`; in
Python a zero divisor raises `ZeroDivisionError`, which the enclosing
handler converts to the error mapping — the zero test here models exactly
that raised-and-caught exception. `adminSearch` stands for the
administrative-area search on the computed bounding box, `sources` for the
emissions-source search and `ts` for `datetime.now().isoformat()`. -/
def get_emissions_by_location (lat lon radiusKm : ℚ) (ts : String)
    (adminSearch : List ℚ → PyDict) (sources : PyDict) : PyDict :=
  if 111 * |lat| = 0 then
    [("error", .str "float division by zero")]
  else
    let latOffset := radiusKm / 111
    let lonOffset := radiusKm / (111 * |lat|)
    let bbox := [lon - lonOffset, lat - latOffset, lon + lonOffset, lat + latOffset]
    [("location", .dict [("lat", .num lat), ("lon", .num lon)]),
     ("radius_km", .num radiusKm),
     ("administrative_areas", .dict (adminSearch bbox)),
     ("emissions_sources", .dict sources),
     ("timestamp", .str ts)]

/-! ## Heat-map processing (climate_apis.py 350-421) -/

/-- Bounding box of the heat-map query. -/
structure Bounds where
  north : ℚ
  south : ℚ
  east : ℚ
  west : ℚ
deriving DecidableEq

/-- One entry of the per-gas `EmissionsSummary` list of an asset record;
both fields are read with `.get`, so each may be absent. -/
structure EmissionEntry where
  gas : Option String
  emissionsQuantity : Option ℚ
deriving DecidableEq

/-- The fields of an upstream asset record read by
`get_emissions_heat_map_data`; `centroidGeometry` is present exactly when
both `Centroid` and its `Geometry` key are present. -/
structure AssetRecord where
  centroidGeometry : Option (List ℚ)
  emissionsSummary : Option (List EmissionEntry)
  sourceId : Option ℤ
  name : Option String
  country : Option String
  sector : Option String
deriving DecidableEq

/-- One produced heat-map point. -/
structure HeatMapPoint where
  lat : ℚ
  lon : ℚ
  intensity : ℚ
  sourceId : Option ℤ
  name : String
  country : String
  sector : String
deriving DecidableEq

/-- Embedding of the emissions-selection loop of climate_apis.py 394-399:
starting from 0, scan the summary list and stop at the first entry whose
`Gas` is `co2e_100yr` or `co2e`, returning its `EmissionsQuantity`
(default 0). -/
def selectEmissions : List EmissionEntry → ℚ
  | [] => 0
  | e :: rest =>
    if e.gas == some "co2e_100yr" || e.gas == some "co2e" then
      e.emissionsQuantity.getD 0
    else
      selectEmissions rest

/-- Emissions selection as the claim words it: the first `co2e_100yr`
entry is preferred, with `co2e` only as a fallback. Stated from the claim
text, to be compared with `selectEmissions` taken from the source. -/
def selectEmissionsPreferred (es : List EmissionEntry) : ℚ :=
  match es.find? (fun e => e.gas == some "co2e_100yr") with
  | some e => e.emissionsQuantity.getD 0
  | none =>
    match es.find? (fun e => e.gas == some "co2e") with
    | some e => e.emissionsQuantity.getD 0
    | none => 0

/-- Quantity of the first summary entry, in list order, whose gas code is
`co2e_100yr` or `co2e`, with no preference between the two codes; 0 when no
entry matches. -/
def firstMatchingGasQuantity (es : List EmissionEntry) : ℚ :=
  match es.find? (fun e => e.gas == some "co2e_100yr" || e.gas == some "co2e") with
  | some e => e.emissionsQuantity.getD 0
  | none => 0

/-- Per-record body of the heat-map loop (climate_apis.py 382-409): extract
a two-element centroid geometry in (lon, lat) order, test interval
containment against the box, and attach the selected emissions quantity. -/
def processAsset (bounds : Bounds) (source : AssetRecord) : Option HeatMapPoint :=
  match source.centroidGeometry with
  | some (lon :: lat :: _) =>
    if bounds.west ≤ lon ∧ lon ≤ bounds.east ∧ bounds.south ≤ lat ∧ lat ≤ bounds.north then
      some { lat := lat,
             lon := lon,
             intensity :=
               match source.emissionsSummary with
               | some es => selectEmissions es
               | none => 0,
             sourceId := source.sourceId,
             name := source.name.getD "Unknown",
             country := source.country.getD "",
             sector := source.sector.getD "" }
    else
      none
  | _ => none

/-- Default global bounds of climate_apis.py 357-363. -/
def defaultBounds : Bounds := { north := 85, south := -85, east := 180, west := -180 }

/-- Result mapping of `get_emissions_heat_map_data`. -/
structure HeatMapData where
  points : List HeatMapPoint
  bounds : Bounds
  year : ℤ
  totalSources : ℕ
deriving DecidableEq

/-- Embedding of `get_emissions_heat_map_data` (climate_apis.py 350-421) on
a successful upstream asset search: default the bounds when absent, keep
the records whose centroid passes the containment test, and echo the box,
year and count. -/
def get_emissions_heat_map_data (bounds : Option Bounds) (year : ℤ)
    (assets : List AssetRecord) : HeatMapData :=
  let b := bounds.getD defaultBounds
  let pts := assets.filterMap (processAsset b)
  { points := pts, bounds := b, year := year, totalSources := pts.length }

/-! ## Global emissions overview (climate_apis.py 423-470) -/

/-- The fields of one country record of the country-emissions response read
by `get_global_emissions_overview`. -/
structure CountryData where
  country : Option String
  emissions : Option (List (String × ℚ))
  rank : Option ℚ
deriving DecidableEq

/-- One entry of the produced country ranking. -/
structure CountryRanking where
  country : Option String
  emissions : ℚ
  rank : ℚ
deriving DecidableEq

/-- Ranking entry built from a country record carrying an `emissions` key
(climate_apis.py 446-454); records without the key are skipped. -/
def rankingOf (cd : CountryData) : Option CountryRanking :=
  match cd.emissions with
  | none => none
  | some em =>
    some { country := cd.country,
           emissions := ((em.find? (fun kv => kv.1 == "co2e_100yr")).map (·.2)).getD 0,
           rank := cd.rank.getD 0 }

/-- Accumulation loop of climate_apis.py 445-454: running total and
ranking list built in response order. -/
def overviewAccum : ℚ → List CountryRanking → List CountryData → ℚ × List CountryRanking
  | total, rankings, [] => (total, rankings)
  | total, rankings, cd :: rest =>
    match rankingOf cd with
    | none => overviewAccum total rankings rest
    | some r => overviewAccum (total + r.emissions) (rankings ++ [r]) rest

/-- Comparison used to model `rankings.sort(key=lambda x: x[emissions],
reverse=True)`: a stable sort placing larger emissions first. -/
def rankingLe (a b : CountryRanking) : Bool := decide (b.emissions ≤ a.emissions)

/-- The fields of the overview result mapping that carry computed data. -/
structure OverviewResult where
  year : ℤ
  totalGlobalEmissions : ℚ
  topCountries : List CountryRanking
deriving DecidableEq

/-- Embedding of `get_global_emissions_overview` (climate_apis.py 423-470)
on a successful list-shaped country-emissions response: accumulate the
total and the rankings, sort descending by emissions, keep the first 10. -/
def get_global_emissions_overview (year : ℤ) (resp : List CountryData) :
    OverviewResult :=
  let acc := overviewAccum 0 [] resp
  { year := year,
    totalGlobalEmissions := acc.1,
    topCountries := (acc.2.mergeSort rankingLe).take 10 }

/-- The per-record `co2e_100yr` figure as the claim words it: the value
under `co2e_100yr` of the record, defaulting to 0 when the emissions
mapping or that key is absent. -/
def claimCo2eFigure (cd : CountryData) : ℚ :=
  (((cd.emissions.getD []).find? (fun kv => kv.1 == "co2e_100yr")).map (·.2)).getD 0

/-- Asset record whose per-gas summary lists a `co2e` entry before a
`co2e_100yr` entry, separating list order from preference order. -/
def c1GasList : List EmissionEntry :=
  [⟨some "co2e", some 5⟩, ⟨some "co2e_100yr", some 10⟩]

/-- Concrete asset record at the origin carrying `c1GasList`. -/
def c1Asset : AssetRecord :=
  ⟨some [0, 0], some c1GasList, some 1, some "PlantA", some "USA", some "power"⟩

/-- Concrete asset record with a two-element centroid and no summary. -/
def c3Asset : AssetRecord := ⟨some [3, 4], none, none, none, none, none⟩

/-- The heat-map point produced from `c3Asset` under the default bounds. -/
def c3Point : HeatMapPoint :=
  { lat := 4, lon := 3, intensity := 0, sourceId := none,
    name := "Unknown", country := "", sector := "" }

/-! ## Helper lemmas -/

/-- The emissions-selection loop of the source equals the first entry, in
list order, whose gas code is `co2e_100yr` or `co2e` (default 0). -/
theorem selectEmissions_eq_firstMatching (es : List EmissionEntry) :
    selectEmissions es = firstMatchingGasQuantity es := by
  induction es with
  | nil => rfl
  | cons e rest ih =>
    by_cases h : (e.gas == some "co2e_100yr" || e.gas == some "co2e") = true
    · simp [selectEmissions, firstMatchingGasQuantity, List.find?, h]
    · simp only [Bool.not_eq_true] at h
      simp [selectEmissions, firstMatchingGasQuantity, List.find?, h, ih]

/-- Any point produced by `processAsset` lies inside the bounding box. -/
theorem processAsset_some_inv {bounds : Bounds} {source : AssetRecord} {p : HeatMapPoint}
    (hp : processAsset bounds source = some p) :
    bounds.west ≤ p.lon ∧ p.lon ≤ bounds.east ∧ bounds.south ≤ p.lat ∧ p.lat ≤ bounds.north := by
  unfold processAsset at hp
  split at hp
  · split at hp
    · rename_i lon lat _ hcond
      cases hp
      exact ⟨hcond.1, hcond.2.1, hcond.2.2.1, hcond.2.2.2⟩
    · exact absurd hp (by simp)
  · exact absurd hp (by simp)

/-- A record without a two-element centroid geometry yields no point. -/
theorem processAsset_skip {bounds : Bounds} {source : AssetRecord}
    (h : ∀ coords, source.centroidGeometry = some coords → coords.length < 2) :
    processAsset bounds source = none := by
  unfold processAsset
  split
  · rename_i lon lat rest heq
    have := h _ heq
    simp at this
    omega
  · rfl

/-- Closed form of the accumulation loop of the global overview: the total
is the initial value plus the emissions of the kept records, and the
ranking list extends the initial one with the kept records in order. -/
theorem overviewAccum_eq (l : List CountryData) :
    ∀ (total : ℚ) (rankings : List CountryRanking),
    overviewAccum total rankings l =
      (total + ((l.filterMap rankingOf).map (·.emissions)).sum,
       rankings ++ l.filterMap rankingOf) := by
  induction l with
  | nil => intro total rankings; simp [overviewAccum]
  | cons cd rest ih =>
    intro total rankings
    simp only [overviewAccum]
    cases h : rankingOf cd with
    | none =>
      dsimp only
      rw [ih]; simp [List.filterMap_cons, h]
    | some r =>
      dsimp only
      rw [ih (total + r.emissions) (rankings ++ [r])]
      simp [List.filterMap_cons, h, Prod.mk.injEq, add_assoc]

/-- The emissions kept by the accumulation loop sum to the per-record
`co2e_100yr` figures, records without an emissions mapping counting 0. -/
theorem filterMap_emissions_sum (l : List CountryData) :
    ((l.filterMap rankingOf).map (·.emissions)).sum = (l.map claimCo2eFigure).sum := by
  induction l with
  | nil => rfl
  | cons cd rest ih =>
    cases h : cd.emissions with
    | none => simp [List.filterMap_cons, rankingOf, h, claimCo2eFigure, ih]
    | some em => simp [List.filterMap_cons, rankingOf, h, claimCo2eFigure, ih]

/-- A successfully prepared carbon payload is exactly what the POST
request transmits, whatever the upstream outcome. -/
theorem calculate_carbon_networkPayload (activityType : String) (activityData : PyDict)
    (upstream : PyDict → Except String (ℚ × ℚ × ℚ)) (payload : PyDict)
    (hp : _prepare_carbon_payload activityType activityData = .ok payload) :
    (calculate_carbon_footprint activityType activityData upstream).networkPayload
      = some payload := by
  unfold calculate_carbon_footprint
  rw [hp]
  dsimp only
  cases h : upstream payload with
  | error msg => rfl
  | ok t => obtain ⟨kg, lb, mt⟩ := t; rfl

/-- Sorting with `rankingLe` yields a list ordered by descending
emissions. -/
theorem mergeSort_rankings_sorted (l : List CountryRanking) :
    (l.mergeSort rankingLe).Pairwise (fun a b => b.emissions ≤ a.emissions) := by
  have h := @List.sorted_mergeSort CountryRanking rankingLe
    (fun a b c hab hbc => by
      simp only [rankingLe, decide_eq_true_eq] at *; exact le_trans hbc hab)
    (fun a b => by
      simp only [rankingLe, Bool.or_eq_true, decide_eq_true_eq]
      exact le_total b.emissions a.emissions)
    l
  exact h.imp (fun hab => by simpa [rankingLe] using hab)

/-! ## Claims -/

/-- C1, counterexample: on a record whose summary lists `co2e` (quantity 5)
before `co2e_100yr` (quantity 10), the heat-map intensity is 5 — the first
matching entry in list order — while the selection worded by the claim,
preferring `co2e_100yr` over `co2e`, yields 10. -/
theorem C1_counterexample :
    (get_emissions_heat_map_data (some defaultBounds) 2022 [c1Asset]).points.map
        (fun p => p.intensity) = [5] ∧
    selectEmissionsPreferred c1GasList = 10 ∧ (5 : ℚ) ≠ 10 :=
  ⟨by rfl, by rfl, by norm_num⟩

/-- C1 (amended): for every asset record whose two-element centroid lies
inside the bounding box, the heat-map intensity is the emissions quantity
of the first entry, in list order, whose gas code is `co2e_100yr` or
`co2e`, with no preference between the two codes; if no entry has either
gas code, the intensity is 0. -/
theorem C1_heat_map_intensity_first_match (bounds : Bounds) (year : ℤ)
    (source : AssetRecord) (lon lat : ℚ) (rest : List ℚ)
    (hg : source.centroidGeometry = some (lon :: lat :: rest))
    (h1 : bounds.west ≤ lon) (h2 : lon ≤ bounds.east)
    (h3 : bounds.south ≤ lat) (h4 : lat ≤ bounds.north) :
    (get_emissions_heat_map_data (some bounds) year [source]).points.map
        (fun p => p.intensity)
      = [firstMatchingGasQuantity (source.emissionsSummary.getD [])] := by
  have hpa : processAsset bounds source = some
      { lat := lat, lon := lon,
        intensity := firstMatchingGasQuantity (source.emissionsSummary.getD []),
        sourceId := source.sourceId, name := source.name.getD "Unknown",
        country := source.country.getD "", sector := source.sector.getD "" } := by
    unfold processAsset
    rw [hg]
    dsimp only
    rw [if_pos ⟨h1, h2, h3, h4⟩]
    cases hs : source.emissionsSummary with
    | none => rfl
    | some es => simp [selectEmissions_eq_firstMatching]
  simp [get_emissions_heat_map_data, List.filterMap_cons, hpa]

/-- C1 witness: the amended statement evaluated on the concrete record of
the counterexample. -/
theorem C1_heat_map_intensity_first_match_witness :
    (get_emissions_heat_map_data (some defaultBounds) 2022 [c1Asset]).points.map
        (fun p => p.intensity)
      = [firstMatchingGasQuantity (c1Asset.emissionsSummary.getD [])] :=
  C1_heat_map_intensity_first_match defaultBounds 2022 c1Asset 0 0 [] (by rfl)
    (by norm_num [defaultBounds, c1Asset]) (by norm_num [defaultBounds, c1Asset])
    (by norm_num [defaultBounds, c1Asset]) (by norm_num [defaultBounds, c1Asset])

/-- C2, counterexample: with `since` above 2050 and `to` below 2000 the
transmitted pair is (2050, 2000), so the transmitted `since` exceeds the
transmitted `to`, refuting the claimed ordering. -/
theorem C2_counterexample :
    countryEmissionsTransmittedYears 2060 1990 = (2050, 2000) ∧
    ¬ ((countryEmissionsTransmittedYears 2060 1990).1 ≤
        (countryEmissionsTransmittedYears 2060 1990).2) :=
  ⟨by decide, by decide⟩

/-- C2 (amended): each transmitted year is independently clamped into
[2000, 2050]; the transmitted `since` may exceed the transmitted `to` when
the inputs are themselves out of order, but whenever the input `since` is
at most the input `to` the transmitted pair stays ordered. -/
theorem C2_years_clamped (since toYear : ℤ) :
    (2000 ≤ (countryEmissionsTransmittedYears since toYear).1 ∧
     (countryEmissionsTransmittedYears since toYear).1 ≤ 2050) ∧
    (2000 ≤ (countryEmissionsTransmittedYears since toYear).2 ∧
     (countryEmissionsTransmittedYears since toYear).2 ≤ 2050) ∧
    (since ≤ toYear →
     (countryEmissionsTransmittedYears since toYear).1 ≤
       (countryEmissionsTransmittedYears since toYear).2) := by
  unfold countryEmissionsTransmittedYears clampYear
  dsimp only
  omega

/-- C2 witness: the amended statement evaluated at concrete years,
discharging the ordering hypothesis at an ordered input pair. -/
theorem C2_years_clamped_witness :
    2000 ≤ (countryEmissionsTransmittedYears 2060 1990).1 ∧
    (countryEmissionsTransmittedYears 1980 2020).1 ≤
      (countryEmissionsTransmittedYears 1980 2020).2 :=
  ⟨(C2_years_clamped 2060 1990).1.1,
   (C2_years_clamped 1980 2020).2.2 (by norm_num)⟩

/-- C3: for every bounding box and every upstream asset list, each
returned heat-map point satisfies west ≤ lon ≤ east and
south ≤ lat ≤ north, and a record without a two-element centroid geometry
is skipped. -/
theorem C3_points_within_bounds (bounds : Bounds) (year : ℤ)
    (assets : List AssetRecord) :
    (∀ p ∈ (get_emissions_heat_map_data (some bounds) year assets).points,
        bounds.west ≤ p.lon ∧ p.lon ≤ bounds.east ∧
        bounds.south ≤ p.lat ∧ p.lat ≤ bounds.north) ∧
    (∀ source ∈ assets,
        (∀ coords, source.centroidGeometry = some coords → coords.length < 2) →
        processAsset bounds source = none) := by
  constructor
  · intro p hp
    simp only [get_emissions_heat_map_data, Option.getD_some, List.mem_filterMap] at hp
    obtain ⟨source, _, hpa⟩ := hp
    exact processAsset_some_inv hpa
  · intro source _ h
    exact processAsset_skip h

/-- C3 witness: the containment statement evaluated on a concrete record
inside the default bounds. -/
theorem C3_points_within_bounds_witness :
    defaultBounds.west ≤ c3Point.lon ∧ c3Point.lon ≤ defaultBounds.east ∧
    defaultBounds.south ≤ c3Point.lat ∧ c3Point.lat ≤ defaultBounds.north :=
  (C3_points_within_bounds defaultBounds 2022 [c3Asset]).1 c3Point (by
    have h : (get_emissions_heat_map_data (some defaultBounds) 2022 [c3Asset]).points
        = [c3Point] := by rfl
    rw [h]
    exact List.mem_singleton_self _)

/-- C4: for every activity type other than electricity, vehicle or flight,
the carbon-footprint call returns a mapping with an `error` key, raises
nothing past its boundary and issues no network request; for each of the
three supported kinds and every activity data, the transmitted payload has
exactly the fixed shape with the defaults of the source, and the concrete
electricity scenario for kwh 100 and country us yields its documented
payload. -/
theorem C4_carbon_validation (activityType : String) (activityData : PyDict)
    (upstream : PyDict → Except String (ℚ × ℚ × ℚ))
    (h1 : activityType ≠ "electricity") (h2 : activityType ≠ "vehicle")
    (h3 : activityType ≠ "flight") :
    ((calculate_carbon_footprint activityType activityData upstream).networkPayload
        = none ∧
     hasKey (calculate_carbon_footprint activityType activityData upstream).result "error"
        = true) ∧
    (calculate_carbon_footprint "electricity" activityData upstream).networkPayload =
      some [("type", .str "electricity"),
            ("electricity_unit", .str "kwh"),
            ("electricity_value", pyGet activityData "kwh" (.num 0)),
            ("country", pyGet activityData "country" (.str "us"))] ∧
    (calculate_carbon_footprint "vehicle" activityData upstream).networkPayload =
      some [("type", .str "vehicle"),
            ("distance_unit", pyGet activityData "distance_unit" (.str "km")),
            ("distance_value", pyGet activityData "distance" (.num 0)),
            ("vehicle_model_id",
             pyGet activityData "vehicle_model_id"
               (.str "7268a9b7-17e8-4c8d-acca-57059252afe9"))] ∧
    (calculate_carbon_footprint "flight" activityData upstream).networkPayload =
      some [("type", .str "flight"),
            ("passengers", pyGet activityData "passengers" (.num 1)),
            ("legs", pyGet activityData "legs" (.list []))] ∧
    _prepare_carbon_payload "electricity" [("kwh", .num 100), ("country", .str "us")] =
      .ok [("type", .str "electricity"), ("electricity_unit", .str "kwh"),
           ("electricity_value", .num 100), ("country", .str "us")] := by
  have hprep : _prepare_carbon_payload activityType activityData =
      .error ("Unsupported activity type: " ++ activityType) := by
    simp [_prepare_carbon_payload, h1, h2, h3]
  refine ⟨⟨?_, ?_⟩,
    calculate_carbon_networkPayload "electricity" activityData upstream _ rfl,
    calculate_carbon_networkPayload "vehicle" activityData upstream _ rfl,
    calculate_carbon_networkPayload "flight" activityData upstream _ rfl,
    by rfl⟩ <;>
    simp [calculate_carbon_footprint, hprep, hasKey]

/-- C4 witness: the statement evaluated at the unsupported activity type
heating, with the flight payload instantiated at empty activity data. -/
theorem C4_carbon_validation_witness :
    (calculate_carbon_footprint "heating" [] (fun _ => .error "net")).networkPayload
      = none ∧
    hasKey (calculate_carbon_footprint "heating" [] (fun _ => .error "net")).result "error"
      = true ∧
    (calculate_carbon_footprint "flight" [] (fun _ => .error "net")).networkPayload =
      some [("type", .str "flight"), ("passengers", .num 1), ("legs", .list [])] :=
  ⟨(C4_carbon_validation "heating" [] (fun _ => .error "net")
      (by decide) (by decide) (by decide)).1.1,
   (C4_carbon_validation "heating" [] (fun _ => .error "net")
      (by decide) (by decide) (by decide)).1.2,
   (C4_carbon_validation "heating" [] (fun _ => .error "net")
      (by decide) (by decide) (by decide)).2.2.2.1⟩

/-- C5: for every source id outside [1, 5000000] the lookup returns an
`error` mapping without attempting the request, and for every id inside
the range the request is attempted. -/
theorem C5_source_id_validation (sourceId : ℤ) (upstream : Except String PyDict) :
    (¬ (1 ≤ sourceId ∧ sourceId ≤ 5000000) →
        (get_source_details sourceId upstream).networkAttempted = false ∧
        hasKey (get_source_details sourceId upstream).result "error" = true) ∧
    ((1 ≤ sourceId ∧ sourceId ≤ 5000000) →
        (get_source_details sourceId upstream).networkAttempted = true) := by
  constructor
  · intro h
    constructor <;> simp [get_source_details, h, hasKey]
  · intro h
    cases upstream <;> simp [get_source_details, h]

/-- C5 witness: the statement evaluated at the out-of-range id 0 and the
in-range id 5. -/
theorem C5_source_id_validation_witness :
    (get_source_details 0 (.ok [])).networkAttempted = false ∧
    hasKey (get_source_details 0 (.ok [])).result "error" = true ∧
    (get_source_details 5 (.ok [])).networkAttempted = true :=
  ⟨((C5_source_id_validation 0 (.ok [])).1 (by omega)).1,
   ((C5_source_id_validation 0 (.ok [])).1 (by omega)).2,
   (C5_source_id_validation 5 (.ok [])).2 (by omega)⟩

/-- C6: for every location and upstream outcome, the weather result
carries all of location, country, temperature, humidity, pressure,
weather condition, wind speed and coordinates, never an `error` key, and
every fallback result carries the synthetic-origin marker key. -/
theorem C6_weather_always_populated (location : String)
    (upstream : Except String WeatherUpstream) :
    (hasKey (get_weather_data location upstream) "location" = true ∧
     hasKey (get_weather_data location upstream) "country" = true ∧
     hasKey (get_weather_data location upstream) "temperature" = true ∧
     hasKey (get_weather_data location upstream) "humidity" = true ∧
     hasKey (get_weather_data location upstream) "pressure" = true ∧
     hasKey (get_weather_data location upstream) "weather" = true ∧
     hasKey (get_weather_data location upstream) "wind_speed" = true ∧
     hasKey (get_weather_data location upstream) "coordinates" = true) ∧
    hasKey (get_weather_data location upstream) "error" = false ∧
    (∀ msg, upstream = .error msg →
        hasKey (get_weather_data location upstream) "note" = true) := by
  cases upstream with
  | ok d =>
    exact ⟨⟨rfl, rfl, rfl, rfl, rfl, rfl, rfl, rfl⟩, rfl, fun msg h => nomatch h⟩
  | error e =>
    exact ⟨⟨rfl, rfl, rfl, rfl, rfl, rfl, rfl, rfl⟩, rfl, fun msg h => rfl⟩

/-- C6 witness: the statement evaluated at a concrete failed upstream
call, discharging the fallback hypothesis. -/
theorem C6_weather_always_populated_witness :
    hasKey (get_weather_data "Gotham" (.error "down")) "location" = true ∧
    hasKey (get_weather_data "Gotham" (.error "down")) "error" = false ∧
    hasKey (get_weather_data "Gotham" (.error "down")) "note" = true :=
  ⟨(C6_weather_always_populated "Gotham" (.error "down")).1.1,
   (C6_weather_always_populated "Gotham" (.error "down")).2.1,
   (C6_weather_always_populated "Gotham" (.error "down")).2.2 "down" rfl⟩

/-- C7: for every location whose lower-cased name is not a key of the city
table, the weather fallback reports the New York country, temperature and
coordinates while the reported location is the title-cased original name;
for every location whose lower-cased name is a key, the fallback reports
the country, temperature and coordinates of the matched table entry, the
reported location again being the title-cased original; and any two
spellings with the same lower-cased form receive the same country,
temperature and coordinates, so the lookup is case-insensitive. -/
theorem C7_fallback_unknown_city (location : String) :
    (city_data.find? (fun kv => kv.1 == pyLower location) = none →
        pyGet (_get_fallback_weather_data location) "location" (.str "")
          = .str (pyTitle location) ∧
        pyGet (_get_fallback_weather_data location) "country" (.str "") = .str "US" ∧
        pyGet (_get_fallback_weather_data location) "temperature" (.num 0) = .num 15 ∧
        pyGet (_get_fallback_weather_data location) "coordinates" (.dict [])
          = .dict [("lat", .num 40.7128), ("lon", .num (-74.0060))]) ∧
    (∀ entry, city_data.find? (fun kv => kv.1 == pyLower location) = some entry →
        pyGet (_get_fallback_weather_data location) "location" (.str "")
          = .str (pyTitle location) ∧
        pyGet (_get_fallback_weather_data location) "country" (.str "")
          = .str entry.2.country ∧
        pyGet (_get_fallback_weather_data location) "temperature" (.num 0)
          = .num entry.2.temp ∧
        pyGet (_get_fallback_weather_data location) "coordinates" (.dict [])
          = .dict [("lat", .num entry.2.lat), ("lon", .num entry.2.lon)]) ∧
    (∀ location2, pyLower location2 = pyLower location →
        pyGet (_get_fallback_weather_data location2) "country" (.str "")
          = pyGet (_get_fallback_weather_data location) "country" (.str "") ∧
        pyGet (_get_fallback_weather_data location2) "temperature" (.num 0)
          = pyGet (_get_fallback_weather_data location) "temperature" (.num 0) ∧
        pyGet (_get_fallback_weather_data location2) "coordinates" (.dict [])
          = pyGet (_get_fallback_weather_data location) "coordinates" (.dict [])) := by
  refine ⟨?_, ?_, ?_⟩
  · intro h
    unfold _get_fallback_weather_data
    rw [h]
    exact ⟨rfl, rfl, rfl, rfl⟩
  · intro entry h
    unfold _get_fallback_weather_data
    rw [h]
    exact ⟨rfl, rfl, rfl, rfl⟩
  · intro location2 he
    unfold _get_fallback_weather_data
    rw [he]
    exact ⟨rfl, rfl, rfl⟩

/-- C7 witness: the statement evaluated at the unmatched location name
Gotham City, at the matched upper-cased name LONDON, and at the two
spellings LONDON and london of one table key. -/
theorem C7_fallback_unknown_city_witness :
    pyGet (_get_fallback_weather_data "Gotham City") "location" (.str "")
      = .str (pyTitle "Gotham City") ∧
    pyGet (_get_fallback_weather_data "Gotham City") "country" (.str "") = .str "US" ∧
    pyGet (_get_fallback_weather_data "LONDON") "country" (.str "") = .str "GB" ∧
    pyGet (_get_fallback_weather_data "LONDON") "temperature" (.num 0) = .num 12 ∧
    pyGet (_get_fallback_weather_data "LONDON") "country" (.str "")
      = pyGet (_get_fallback_weather_data "london") "country" (.str "") :=
  ⟨((C7_fallback_unknown_city "Gotham City").1 (by rfl)).1,
   ((C7_fallback_unknown_city "Gotham City").1 (by rfl)).2.1,
   ((C7_fallback_unknown_city "LONDON").2.1 ("london", ⟨51.5074, -0.1278, 12, "GB"⟩)
      (by rfl)).2.1,
   ((C7_fallback_unknown_city "LONDON").2.1 ("london", ⟨51.5074, -0.1278, 12, "GB"⟩)
      (by rfl)).2.2.1,
   ((C7_fallback_unknown_city "LONDON").2.2 "london" (by rfl)).1.symm⟩

/-- C8: at latitude 0 the longitude-offset division has a zero divisor, the
raised error is caught and the call returns a mapping with an `error` key
rather than raising; at every nonzero latitude the divisor is nonzero and
the error branch is unreachable. -/
theorem C8_equator_division (lon radiusKm : ℚ) (ts : String)
    (adminSearch : List ℚ → PyDict) (sources : PyDict) :
    hasKey (get_emissions_by_location 0 lon radiusKm ts adminSearch sources) "error"
      = true ∧
    (∀ lat : ℚ, lat ≠ 0 →
        hasKey (get_emissions_by_location lat lon radiusKm ts adminSearch sources) "error"
          = false) := by
  constructor
  · have hc : (111 : ℚ) * |(0 : ℚ)| = 0 := by simp
    simp [get_emissions_by_location, hc, hasKey]
  · intro lat hlat
    have hne : ¬ ((111 : ℚ) * |lat| = 0) := by
      simp [abs_eq_zero, hlat]
    simp [get_emissions_by_location, hne, hasKey]

/-- C8 witness: the statement evaluated at latitude 0 and at the nonzero
latitude 40. -/
theorem C8_equator_division_witness :
    hasKey (get_emissions_by_location 0 10 50 "t" (fun _ => []) []) "error" = true ∧
    hasKey (get_emissions_by_location 40 10 50 "t" (fun _ => []) []) "error" = false :=
  ⟨(C8_equator_division 10 50 "t" (fun _ => []) []).1,
   (C8_equator_division 10 50 "t" (fun _ => []) []).2 40 (by norm_num)⟩

/-- C9: for every successful list-shaped country-emissions response, the
overview keeps at most 10 countries, orders them by descending emissions,
and its total equals the sum of the per-record `co2e_100yr` figures with 0
for absent values. -/
theorem C9_overview_ranking (year : ℤ) (resp : List CountryData) :
    (get_global_emissions_overview year resp).topCountries.length ≤ 10 ∧
    (get_global_emissions_overview year resp).topCountries.Pairwise
      (fun a b => b.emissions ≤ a.emissions) ∧
    (get_global_emissions_overview year resp).totalGlobalEmissions =
      (resp.map claimCo2eFigure).sum := by
  refine ⟨?_, ?_, ?_⟩
  · simp [get_global_emissions_overview, List.length_take]
  · have hs := mergeSort_rankings_sorted (overviewAccum 0 [] resp).2
    exact hs.sublist
      (List.take_sublist 10 ((overviewAccum 0 [] resp).2.mergeSort rankingLe))
  · have h := overviewAccum_eq resp 0 []
    simp [get_global_emissions_overview, h, filterMap_emissions_sum]

/-- C10: a successful air-quality response with an empty data list yields
exactly the mapping with the `error` message, and no successful response
ever yields the fallback marker key: the fallback is produced only when
the request itself raises. -/
theorem C10_empty_list_no_fallback (fallbackTs : ℤ) :
    get_air_quality (.ok []) fallbackTs
      = [("error", .str "No air quality data available")] ∧
    (∀ entries : List AqiEntry,
        hasKey (get_air_quality (.ok entries) fallbackTs) "note" = false) := by
  refine ⟨rfl, ?_⟩
  intro entries
  cases entries with
  | nil => rfl
  | cons e rest => rfl

end ClimateIQ
